import Mathlib

/-!
Verification development for the Immich home-assistant integration
(`custom_components/immich/hub.py` and `custom_components/immich/image.py`).

The Python code is shallowly embedded: each hub operation becomes a pure
function from the observable ingredients of one HTTP exchange (whether the
transport succeeded, the response status, the decoded response body) to an
`Except` value, where `Except.error` models a raised exception and
`Except.ok` the returned value.  The stateful image entity becomes explicit
state passing over an `ImageState` record, and the retry loop of
`_load_and_cache_next_image` becomes a fuel-indexed recursion whose
fuel-exhaustion result models non-termination.  Randomness
(`random.choice`) is modelled by an oracle index reduced modulo the list
length, and wall-clock time (`datetime.now()`) by a `Nat` timestamp in
seconds.
-/

/-- Python exceptions that the embedded operations can raise:
`CannotConnect` (transport failure re-signalled by the hub), `ApiError`
(non-success HTTP status), `AttributeError` (missing object attribute),
`KeyError` (missing dict key), and the exception raised by iterating a
non-list value in a filter comprehension (`TypeError` for a non-iterable;
Python raises `AttributeError` instead for iterable non-lists such as
strings — the model does not distinguish the two, only that the
comprehension raises). -/
inductive PyErr where
  | cannotConnect
  | apiError
  | attributeError
  | keyError
  | typeError
deriving Repr, DecidableEq

/-- One asset entry of a JSON search/list response, restricted to the keys
the code reads: `id` (always indexed directly, hence mandatory), and the
optional keys `type`, `originalMimeType` and `mimeType` (absent key =
`none`). -/
structure Asset where
  id : String
  type : Option String
  originalMimeType : Option String
  mimeType : Option String
deriving Repr, DecidableEq

/-- The metadata dict returned by the per-asset endpoint, restricted to the
keys `_load_and_cache_next_image` reads via `.get`; the EXIF blob is kept
opaque as a string. -/
structure AssetInfo where
  originalFileName : Option String
  exifInfo : Option String
  localDateTime : Option String
deriving Repr, DecidableEq

/-- The value stored under a nested `"items"` key: the code reads it with
`data["assets"].get("items", [])` and performs no `isinstance` check, so a
present value may or may not be a list — a non-list flows through to the
filter comprehension, which then raises. -/
inductive InnerItems where
  | list (l : List Asset)
  | nonlist
deriving Repr, DecidableEq

/-- The nested `"assets"` object of a `/api/search/metadata` response: its
`"items"` key when present, carrying either a list of assets or some
non-list value. -/
structure AssetsObj where
  items : Option InnerItems
deriving Repr, DecidableEq

/-- A decoded search response body, restricted to the two shapes the
extractor in `ImmichHub.search_images` recognises: `items` is the top-level
`"items"` key when present and a list, `assets` is the top-level
`"assets"` key when present and a dict. -/
structure SearchResponseBody where
  items : Option (List Asset)
  assets : Option AssetsObj
deriving Repr, DecidableEq

/-- `_ALLOWED_MIME_TYPES` in `hub.py` (raw-download allow-list). -/
def allowedMimeTypesDownload : List String := ["image/png", "image/jpeg"]

/-- The `allowed` set literal inside `ImmichHub.search_images`. -/
def allowedMimeTypesSearch : List String :=
  ["image/jpeg", "image/jpg", "image/png", "image/webp", "image/heic", "image/heif"]

/-- Python's `str.lower()`, character by character (MIME type strings are
ASCII, where this agrees with Python's Unicode lowering). -/
def pyLower (s : String) : String := String.mk (s.data.map Char.toLower)

/-- `_mtype` inside `ImmichHub.search_images`:
`asset.get("originalMimeType", asset.get("mimeType", "")).lower()`. -/
def mtype (a : Asset) : String :=
  pyLower (a.originalMimeType.getD (a.mimeType.getD ""))

/-- The final filter of `ImmichHub.search_images`:
`a.get("type") == "IMAGE" and _mtype(a) in allowed`. -/
def searchKeep (a : Asset) : Bool :=
  a.type == some "IMAGE" && allowedMimeTypesSearch.contains (mtype a)

/-- The shape-tolerant extractor section of `ImmichHub.search_images`:
the value bound to the Python `assets` variable.  The first branch keeps
its `isinstance(..., list)` guard, so a top-level non-list `"items"` falls
through; the second branch reads `data["assets"].get("items", [])` with
no type check, so whatever is stored there (defaulting to the empty list)
is passed on, list or not; `none` models the `else` branch that returns
`[]` at once. -/
def extractAssets (d : SearchResponseBody) : Option InnerItems :=
  match d.items with
  | some l => some (InnerItems.list l)
  | none =>
    match d.assets with
    | some obj => some (obj.items.getD (InnerItems.list []))
    | none => none

/-- `ImmichHub.search_images`, as a function of the response the server
sent back for the posted payload: raises `ApiError` unless the status is
exactly 200; returns `[]` at once for an unrecognised shape; filters an
extracted list with `searchKeep`; and when the nested shape handed a
non-list through, the filter comprehension raises (`typeError`).  Note the
code wraps this method in no transport-error handler. -/
def search_images (status : Nat) (d : SearchResponseBody) : Except PyErr (List Asset) :=
  if status ≠ 200 then Except.error PyErr.apiError
  else
    match extractAssets d with
    | none => Except.ok []
    | some (InnerItems.list assets) => Except.ok (assets.filter searchKeep)
    | some InnerItems.nonlist => Except.error PyErr.typeError

/-- `ImmichHub.download_asset`, as a function of the observable HTTP
exchange: a transport failure (`transportOk = false`) is re-signalled as
`CannotConnect`; a non-200 status or a disallowed response content type
returns `None`; otherwise the body bytes are returned. -/
def download_asset (transportOk : Bool) (status : Nat) (contentType : String)
    (body : List Nat) : Except PyErr (Option (List Nat)) :=
  if !transportOk then Except.error PyErr.cannotConnect
  else if status ≠ 200 then Except.ok none
  else if !(allowedMimeTypesDownload.contains contentType) then Except.ok none
  else Except.ok (some body)

/-- `ImmichHub.get_asset_info`: transport failure raises `CannotConnect`,
a non-200 status raises `ApiError`, and the success path returns the
decoded metadata dict (wrapped in `some` to reflect the declared
`dict | None` return type, which the code never exercises with `None`). -/
def get_asset_info (transportOk : Bool) (status : Nat) (body : AssetInfo) :
    Except PyErr (Option AssetInfo) :=
  if !transportOk then Except.error PyErr.cannotConnect
  else if status ≠ 200 then Except.error PyErr.apiError
  else Except.ok (some body)

/-- `ImmichHub.list_album_images`: transport failure raises
`CannotConnect`, a non-200 status raises `ApiError`, and the success path
returns the album detail's `"assets"` list filtered to `type == "IMAGE"`. -/
def list_album_images (transportOk : Bool) (status : Nat) (albumAssets : List Asset) :
    Except PyErr (List Asset) :=
  if !transportOk then Except.error PyErr.cannotConnect
  else if status ≠ 200 then Except.error PyErr.apiError
  else Except.ok (albumAssets.filter (fun a => a.type == some "IMAGE"))

/-! ## The polling image entity (`image.py`) -/

/-- `_ID_LIST_REFRESH_INTERVAL = timedelta(hours=8)`, in seconds. -/
def idListRefreshInterval : Nat := 8 * 60 * 60

/-- The candidate-ID cache slice of a `BaseImmichImage` entity:
`_cached_available_asset_ids` and `_available_asset_ids_last_updated`
(both initialised to `None`). -/
structure CacheState where
  cached : Option (List String)
  lastUpdated : Option Nat
deriving Repr, DecidableEq

/-- The staleness test opening `_get_next_asset_id`: true when
`_available_asset_ids_last_updated` is unset (`None`; a `datetime` is
never falsy) or `datetime.now() - last_updated` strictly exceeds the
8-hour interval.  `Nat` truncated subtraction agrees with the Python
comparison: a clock that went backwards gives a non-positive timedelta,
which is not `> 8h`, just as `now - t = 0` is not. -/
def cacheIsStale (now : Nat) (lastUpdated : Option Nat) : Bool :=
  match lastUpdated with
  | none => true
  | some t => decide (idListRefreshInterval < now - t)

/-- The refresh branch of `_get_next_asset_id`: when the cache is stale it
is replaced by the `_refresh_available_asset_ids()` result `r` (even when
`r` is empty) and restamped with the current time; otherwise the cache
state is untouched. -/
def refreshedCache (r : List String) (now : Nat) (s : CacheState) : CacheState :=
  if cacheIsStale now s.lastUpdated then { cached := some r, lastUpdated := some now }
  else s

/-- `random.choice(ids)` modelled by an oracle index `idx` reduced modulo
the list length, together with the preceding falsy test
`if not self._cached_available_asset_ids` that also catches the empty
list. -/
def pickRandom (idx : Nat) (ids : List String) : Option String :=
  if h : ids = [] then none
  else some (ids.get ⟨idx % ids.length, Nat.mod_lt idx (List.length_pos.mpr h)⟩)

/-- `BaseImmichImage._get_next_asset_id`, with the refresh result `r`, the
random oracle `idx` and the clock `now` passed explicitly: refreshes the
cache when stale, then returns `None` when the (possibly refreshed) cache
is `None` or empty, and otherwise a randomly chosen cached ID.  The first
component is the entity's cache state after the call. -/
def get_next_asset_id (r : List String) (idx now : Nat) (s : CacheState) :
    CacheState × Option String :=
  let cache := refreshedCache r now s
  match cache.cached with
  | none => (cache, none)
  | some ids => (cache, pickRandom idx ids)

/-- The three `_attr_extra_state_attributes` keys that
`_load_and_cache_next_image` writes. -/
structure AttrMap where
  media_filename : String
  media_exif : String
  media_localdatetime : String
deriving Repr, DecidableEq

/-- The attribute values written after a successful download:
`asset_info.get(k) or ""` for each of the three keys (both an absent key
and a falsy value collapse to `""`; on the string model `Option.getD ""`
coincides). -/
def attrsOfInfo (info : AssetInfo) : AttrMap :=
  { media_filename := info.originalFileName.getD ""
    media_exif := info.exifInfo.getD ""
    media_localdatetime := info.localDateTime.getD "" }

/-- The mutable state of a `BaseImmichImage` entity that
`_load_and_cache_next_image` touches: the candidate cache plus the
displayed-image slice (`_current_image_bytes`,
`_attr_extra_state_attributes`, `_attr_image_last_updated`). -/
structure ImageState where
  cache : CacheState
  current_image_bytes : Option (List Nat)
  extra_state_attributes : AttrMap
  image_last_updated : Option Nat
deriving Repr, DecidableEq

/-- The `while` loop of `BaseImmichImage._load_and_cache_next_image`,
indexed by `fuel` (remaining iterations the model is willing to unroll)
and the iteration counter `i` feeding the per-iteration random oracle
`idxFn`.  `download` and `getInfo` are the hub calls' results per asset ID
on their non-raising executions.  Both guards are Python falsy tests:
`if not asset_id: return` exits on `None` and on the empty string alike,
and `if not asset_bytes: ... continue` retries on `None` and on empty
bytes `b""` alike (an empty body also fails the enclosing
`while not asset_bytes` condition).  Result `(done, s, sleeps)`: `done` is
false when the fuel ran out with the loop still running, `s` is the entity
state reached, and `sleeps` counts the executed `asyncio.sleep(1)` calls. -/
def loadLoop (r : List String) (download : String → Option (List Nat))
    (getInfo : String → AssetInfo) (idxFn : Nat → Nat) (now : Nat) :
    Nat → Nat → ImageState → Bool × ImageState × Nat
  | 0, _, s => (false, s, 0)
  | fuel + 1, i, s =>
    let step := get_next_asset_id r (idxFn i) now s.cache
    let s1 : ImageState := { s with cache := step.1 }
    match step.2 with
    | none => (true, s1, 0)
    | some assetId =>
      if assetId = "" then (true, s1, 0)
      else
        match download assetId with
        | none =>
          let rest := loadLoop r download getInfo idxFn now fuel (i + 1) s1
          (rest.1, rest.2.1, rest.2.2 + 1)
        | some [] =>
          let rest := loadLoop r download getInfo idxFn now fuel (i + 1) s1
          (rest.1, rest.2.1, rest.2.2 + 1)
        | some (b :: bs) =>
          (true,
            { s1 with
              extra_state_attributes := attrsOfInfo (getInfo assetId)
              current_image_bytes := some (b :: bs)
              image_last_updated := some now }, 0)

/-- `BaseImmichImage._load_and_cache_next_image`: run the loop from
iteration 0. -/
def load_and_cache_next_image (r : List String) (download : String → Option (List Nat))
    (getInfo : String → AssetInfo) (idxFn : Nat → Nat) (now fuel : Nat)
    (s : ImageState) : Bool × ImageState × Nat :=
  loadLoop r download getInfo idxFn now fuel 0 s

/-! ## The source variants -/

/-- A search payload as the fan-out variant manipulates it: the
`"personIds"` key (absent = `none`) and the remaining key-value pairs,
kept opaque. -/
structure SearchPayload where
  personIds : Option (List String)
  rest : List (String × String)
deriving Repr, DecidableEq

/-- The per-person payload built inside
`ImmichImageSearch._refresh_available_asset_ids`:
`{**base, "personIds": [pid]}` where `base` is the payload without its
`personIds` key. -/
def subSearchPayload (p : SearchPayload) (pid : String) : SearchPayload :=
  { personIds := some [pid], rest := p.rest }

/-- The union accumulated by the fan-out over the gathered per-person
results: `all_ids.update(a["id"] for a in assets)` for each sub-result, as
a finite set. -/
def fanoutIds (search : SearchPayload → List Asset) (p : SearchPayload)
    (pids : List String) : Finset String :=
  pids.foldr
    (fun pid acc => ((search (subSearchPayload p pid)).map Asset.id).toFinset ∪ acc) ∅

/-- `ImmichImageSearch._refresh_available_asset_ids`, with the hub's
search results abstracted as a function `search` of the posted payload
(its non-raising executions): indexing `self._search_payload["personIds"]`
raises `KeyError` when the key is absent; otherwise one search per person
ID is gathered and the asset IDs are unioned into a set (the Python code
finally returns `list(all_ids)`, an enumeration of this set in unspecified
order). -/
def immichImageSearch_refresh (search : SearchPayload → List Asset)
    (p : SearchPayload) : Except PyErr (Finset String) :=
  match p.personIds with
  | none => Except.error PyErr.keyError
  | some pids => Except.ok (fanoutIds search p pids)

/-- `BaseImmichImage._refresh_available_asset_ids`: reads
`self._search_payload` — an attribute lookup that raises `AttributeError`
when no class in the hierarchy ever set it (`none`) — and maps the
searched assets to their IDs. -/
def base_refresh_available_asset_ids (searchPayloadAttr : Option SearchPayload)
    (search : SearchPayload → List Asset) : Except PyErr (List String) :=
  match searchPayloadAttr with
  | none => Except.error PyErr.attributeError
  | some p => Except.ok ((search p).map Asset.id)

/-- `ImmichImageAlbum._refresh_available_asset_ids` as the class resolves
it: `ImmichImageAlbum` declares no override and its `__init__` sets only
`_album_id`, `_attr_unique_id` and `_attr_name`, so the inherited base
method runs with no `_search_payload` attribute anywhere on the instance. -/
def immichImageAlbum_refresh (search : SearchPayload → List Asset) :
    Except PyErr (List String) :=
  base_refresh_available_asset_ids none search

/-- Modelled from the spec: the album variant's refresh as §4.2 describes
it — "takes a fixed album ID at construction; lists that album's images,
returns their IDs", i.e. `ImmichHub.list_album_images` on the constructed
album ID followed by extracting each asset's ID.  (The corresponding
override is missing from `image.py`; `list_album_images` exists in
`hub.py` but has no caller.) -/
def albumRefreshSpec (transportOk : Bool) (status : Nat) (albumAssets : List Asset) :
    Except PyErr (List String) :=
  (list_album_images transportOk status albumAssets).map (fun l => l.map Asset.id)

/-! ## Theorems -/

/-- The cache state returned by `_get_next_asset_id` is exactly the
(possibly refreshed) cache, whatever the selection outcome. -/
lemma get_next_asset_id_fst (r : List String) (idx now : Nat) (s : CacheState) :
    (get_next_asset_id r idx now s).1 = refreshedCache r now s := by
  unfold get_next_asset_id
  cases h : (refreshedCache r now s).cached <;> simp [h]

/-- The ID returned by `_get_next_asset_id` is the random pick from the
(possibly refreshed) cached list, `none` when that is absent. -/
lemma get_next_asset_id_snd (r : List String) (idx now : Nat) (s : CacheState) :
    (get_next_asset_id r idx now s).2 =
      (refreshedCache r now s).cached.bind (pickRandom idx) := by
  unfold get_next_asset_id
  cases h : (refreshedCache r now s).cached <;> simp [h]

lemma pickRandom_some_of_ne_nil (idx : Nat) (ids : List String) (hne : ids ≠ []) :
    ∃ x, pickRandom idx ids = some x ∧ x ∈ ids := by
  unfold pickRandom
  rw [dif_neg hne]
  exact ⟨_, rfl, List.get_mem _ _ _⟩

lemma pickRandom_surjective (ids : List String) (x : String) (h : x ∈ ids) :
    ∃ j, pickRandom j ids = some x := by
  obtain ⟨i, hget⟩ := List.mem_iff_get.mp h
  have hne : ids ≠ [] := by
    intro hn
    subst hn
    exact absurd i.isLt (by simp)
  refine ⟨i.val, ?_⟩
  unfold pickRandom
  rw [dif_neg hne]
  have hfin : (⟨i.val % ids.length, Nat.mod_lt i.val (List.length_pos.mpr hne)⟩ :
      Fin ids.length) = i := Fin.ext (Nat.mod_eq_of_lt i.isLt)
  rw [hfin, hget]

/-- C1: if the last-refreshed timestamp is set and its age is at most 8
hours, `_get_next_asset_id` leaves the candidate cache completely
untouched (so consecutive calls draw from the same set); if the timestamp
is unset or the age strictly exceeds 8 hours, the refresh result `r`
replaces the cached list — even when `r` is empty — and the timestamp is
stamped with the current time. -/
theorem get_next_asset_id_refresh_policy (r : List String) (idx now t : Nat)
    (s : CacheState) :
    (s.lastUpdated = some t → now - t ≤ idListRefreshInterval →
        (get_next_asset_id r idx now s).1 = s) ∧
      ((s.lastUpdated = none ∨
          (s.lastUpdated = some t ∧ idListRefreshInterval < now - t)) →
        (get_next_asset_id r idx now s).1 =
          { cached := some r, lastUpdated := some now }) := by
  constructor
  · intro h1 h2
    have hst : cacheIsStale now s.lastUpdated = false := by
      rw [h1]
      simp only [cacheIsStale, decide_eq_false_iff_not]
      omega
    rw [get_next_asset_id_fst]
    simp [refreshedCache, hst]
  · intro h
    have hst : cacheIsStale now s.lastUpdated = true := by
      rcases h with hn | ⟨ht, hlt⟩
      · rw [hn]; rfl
      · rw [ht]
        simpa [cacheIsStale] using hlt
    rw [get_next_asset_id_fst]
    simp [refreshedCache, hst]

/-- Witness for C1: a 50-second-old cache at `now = 100` is kept as-is; a
never-populated cache is replaced by the (here empty) refresh result and
stamped with `now = 5`. -/
theorem get_next_asset_id_refresh_policy_witness :
    (get_next_asset_id ["b"] 0 100 (CacheState.mk (some ["a"]) (some 50))).1 =
        CacheState.mk (some ["a"]) (some 50) ∧
      (get_next_asset_id [] 0 5 (CacheState.mk (some ["a"]) none)).1 =
        CacheState.mk (some []) (some 5) :=
  ⟨(get_next_asset_id_refresh_policy ["b"] 0 100 50
      (CacheState.mk (some ["a"]) (some 50))).1 rfl (by decide),
   (get_next_asset_id_refresh_policy [] 0 5 0
      (CacheState.mk (some ["a"]) none)).2 (Or.inl rfl)⟩

/-- C2: after the optional refresh, an absent or empty candidate cache
makes `_get_next_asset_id` return `none` (no exception is modelled — the
operation is total); a non-empty cache yields `some` element of the cached
list; and no cached ID is excluded: every element of the cached list is
returned for some value of the random oracle. -/
theorem get_next_asset_id_selection (r : List String) (idx now : Nat) (s : CacheState) :
    (((get_next_asset_id r idx now s).1.cached = none ∨
        (get_next_asset_id r idx now s).1.cached = some []) →
      (get_next_asset_id r idx now s).2 = none) ∧
      (∀ ids, (get_next_asset_id r idx now s).1.cached = some ids → ids ≠ [] →
        ∃ x, (get_next_asset_id r idx now s).2 = some x ∧ x ∈ ids) ∧
      (∀ ids x, (get_next_asset_id r idx now s).1.cached = some ids → x ∈ ids →
        ∃ j, (get_next_asset_id r j now s).2 = some x) := by
  refine ⟨?_, ?_, ?_⟩
  · intro h
    rw [get_next_asset_id_fst] at h
    rw [get_next_asset_id_snd]
    rcases h with h | h <;> rw [h]
    · rfl
    · simp [pickRandom]
  · intro ids hc hne
    rw [get_next_asset_id_fst] at hc
    rw [get_next_asset_id_snd, hc]
    simpa using pickRandom_some_of_ne_nil idx ids hne
  · intro ids x hc hx
    rw [get_next_asset_id_fst] at hc
    obtain ⟨j, hj⟩ := pickRandom_surjective ids x hx
    refine ⟨j, ?_⟩
    rw [get_next_asset_id_snd, hc]
    exact hj

/-- Witness for C2 on a fresh two-element cache: the empty-cache case
returns `none`, the non-empty case returns a cached element, and both
cached IDs are reachable ("b" here). -/
theorem get_next_asset_id_selection_witness :
    (get_next_asset_id [] 0 0 (CacheState.mk (some []) (some 0))).2 = none ∧
      (∃ x, (get_next_asset_id [] 0 0 (CacheState.mk (some ["a", "b"]) (some 0))).2 =
          some x ∧ x ∈ ["a", "b"]) ∧
      (∃ j, (get_next_asset_id [] j 0 (CacheState.mk (some ["a", "b"]) (some 0))).2 =
        some "b") :=
  ⟨(get_next_asset_id_selection [] 0 0 (CacheState.mk (some []) (some 0))).1
      (Or.inr rfl),
   (get_next_asset_id_selection [] 0 0 (CacheState.mk (some ["a", "b"]) (some 0))).2.1
      ["a", "b"] rfl (by decide),
   (get_next_asset_id_selection [] 0 0 (CacheState.mk (some ["a", "b"]) (some 0))).2.2
      ["a", "b"] "b" rfl (by decide)⟩

/-- C3: the album variant's refresh, as the code resolves it, raises
`AttributeError` for every possible hub behaviour — `ImmichImageAlbum`
inherits the base `_refresh_available_asset_ids`, which reads the
`_search_payload` attribute that no album entity ever sets — so it never
lists the constructed album's images; `hub.list_album_images` (the
operation the spec prescribes, modelled faithfully in `albumRefreshSpec`)
has no caller.  The second conjunct shows the prescribed behaviour is
well-defined and different at a concrete album. -/
theorem immichImageAlbum_refresh_attribute_error (search : SearchPayload → List Asset) :
    immichImageAlbum_refresh search = Except.error PyErr.attributeError ∧
      albumRefreshSpec true 200 [Asset.mk "a1" (some "IMAGE") none none] =
        Except.ok ["a1"] :=
  ⟨rfl, rfl⟩

/-- Membership in the fan-out union: an ID is collected exactly when some
per-person sub-search returned an asset carrying it. -/
lemma mem_fanoutIds (search : SearchPayload → List Asset) (p : SearchPayload)
    (pids : List String) (x : String) :
    x ∈ fanoutIds search p pids ↔
      ∃ pid ∈ pids, ∃ a ∈ search (subSearchPayload p pid), a.id = x := by
  induction pids with
  | nil => simp [fanoutIds]
  | cons hd tl ih =>
    unfold fanoutIds at ih ⊢
    simp only [List.foldr_cons, Finset.mem_union, List.mem_toFinset, List.mem_map,
      List.mem_cons, ih]
    constructor
    · rintro (⟨a, ha, rfl⟩ | ⟨pid, hpid, a, ha, rfl⟩)
      · exact ⟨hd, Or.inl rfl, a, ha, rfl⟩
      · exact ⟨pid, Or.inr hpid, a, ha, rfl⟩
    · rintro ⟨pid, rfl | hpid, a, ha, rfl⟩
      · exact Or.inl ⟨a, ha, rfl⟩
      · exact Or.inr ⟨pid, hpid, a, ha, rfl⟩

/-- C4: on a payload carrying a `personIds` list, the fan-out refresh
returns (without raising) the set whose members are exactly the IDs of
assets found by some single-person sub-search — the sub-search posting the
original payload with `personIds` replaced by that one person — and this
set does not depend on the order of the person list (hence not on the
order in which the gathered sub-searches complete). -/
theorem immichImageSearch_refresh_union (search : SearchPayload → List Asset)
    (p : SearchPayload) (pids : List String) (h : p.personIds = some pids) :
    ∃ S, immichImageSearch_refresh search p = Except.ok S ∧
      (∀ x, x ∈ S ↔ ∃ pid ∈ pids, ∃ a ∈ search (subSearchPayload p pid), a.id = x) ∧
      (∀ q pids', q.personIds = some pids' → q.rest = p.rest → pids.Perm pids' →
        immichImageSearch_refresh search q = Except.ok S) := by
  refine ⟨fanoutIds search p pids, ?_, fun x => mem_fanoutIds search p pids x, ?_⟩
  · simp [immichImageSearch_refresh, h]
  · intro q pids' hq hrest hperm
    have hsub : ∀ pid, subSearchPayload q pid = subSearchPayload p pid := by
      intro pid
      simp [subSearchPayload, hrest]
    have hqp : fanoutIds search q pids' = fanoutIds search p pids' := by
      unfold fanoutIds
      congr 1
      funext pid acc
      rw [hsub pid]
    simp only [immichImageSearch_refresh, hq, hqp]
    congr 1
    apply Finset.ext
    intro x
    rw [mem_fanoutIds, mem_fanoutIds]
    constructor
    · rintro ⟨pid, hpid, w⟩
      exact ⟨pid, hperm.mem_iff.mpr hpid, w⟩
    · rintro ⟨pid, hpid, w⟩
      exact ⟨pid, hperm.mem_iff.mp hpid, w⟩

/-- A concrete remote for the C4 witness: person `p1` owns asset `x`,
person `p2` owns asset `y`, all other payloads match nothing. -/
def c4Search (q : SearchPayload) : List Asset :=
  match q.personIds with
  | some ["p1"] => [Asset.mk "x" (some "IMAGE") (some "image/jpeg") none]
  | some ["p2"] => [Asset.mk "y" (some "IMAGE") (some "image/jpeg") none]
  | _ => []

/-- The C4 witness payload: two person filters plus one opaque extra key. -/
def c4Payload : SearchPayload :=
  { personIds := some ["p1", "p2"]
    rest := [("takenAfter", "2011-01-01T00:00:00.000Z")] }

/-- Witness for C4 at the spec's end-to-end scenario 3: a two-person
payload whose sub-searches return `x` and `y`. -/
theorem immichImageSearch_refresh_union_witness :
    ∃ S, immichImageSearch_refresh c4Search c4Payload = Except.ok S ∧
      (∀ x, x ∈ S ↔ ∃ pid ∈ ["p1", "p2"],
        ∃ a ∈ c4Search (subSearchPayload c4Payload pid), a.id = x) ∧
      (∀ q pids', q.personIds = some pids' → q.rest = c4Payload.rest →
        List.Perm ["p1", "p2"] pids' →
        immichImageSearch_refresh c4Search q = Except.ok S) :=
  immichImageSearch_refresh_union c4Search c4Payload ["p1", "p2"] rfl

/-- C5: whenever `search_images` returns a list, every entry of that list
has `type = "IMAGE"` and a MIME type — the canonical `originalMimeType`
field when present, otherwise the legacy `mimeType` field, lowercased —
inside the fixed allow-list. -/
theorem search_images_returns_only_allowed_images (st : Nat) (d : SearchResponseBody)
    (l : List Asset) (h : search_images st d = Except.ok l) :
    ∀ a ∈ l, a.type = some "IMAGE" ∧ mtype a ∈ allowedMimeTypesSearch := by
  intro a ha
  unfold search_images at h
  by_cases hst : st = 200
  · subst hst
    simp only [ne_eq, not_true_eq_false, if_false, reduceIte] at h
    cases hx : extractAssets d with
    | none =>
      rw [hx] at h
      cases h
      simp at ha
    | some inner =>
      cases inner with
      | list assets =>
        rw [hx] at h
        cases h
        have hmem := List.mem_filter.mp ha
        have hk := hmem.2
        simp only [searchKeep, Bool.and_eq_true, beq_iff_eq] at hk
        exact ⟨hk.1, by simpa using hk.2⟩
      | nonlist =>
        rw [hx] at h
        cases h
  · simp [hst] at h

/-- Witness for C5 at a concrete 200 response: a flat body with one
conforming asset and one video asset filters down to the conforming one. -/
theorem search_images_returns_only_allowed_images_witness :
    (Asset.mk "x" (some "IMAGE") (some "image/JPEG") none).type = some "IMAGE" ∧
      mtype (Asset.mk "x" (some "IMAGE") (some "image/JPEG") none) ∈
        allowedMimeTypesSearch :=
  search_images_returns_only_allowed_images 200
    { items := some [Asset.mk "x" (some "IMAGE") (some "image/JPEG") none,
                     Asset.mk "y" (some "VIDEO") (some "image/jpeg") none],
      assets := none }
    [Asset.mk "x" (some "IMAGE") (some "image/JPEG") none]
    (by rfl)
    (Asset.mk "x" (some "IMAGE") (some "image/JPEG") none) (by decide)

/-- C9: with the transport up, a response that is not successful (not
2xx) or whose declared content type is outside `{image/png, image/jpeg}`
makes `download_asset` return `None` rather than raise; and the only
raise the operation can produce is `CannotConnect`, exactly on transport
failure. -/
theorem download_asset_none_vs_raise (t : Bool) (st : Nat) (ct : String) (b : List Nat) :
    (t = true → (¬(200 ≤ st ∧ st < 300) ∨ ct ∉ allowedMimeTypesDownload) →
        download_asset t st ct b = Except.ok none) ∧
      (∀ e, download_asset t st ct b = Except.error e →
        t = false ∧ e = PyErr.cannotConnect) ∧
      (t = false → download_asset t st ct b = Except.error PyErr.cannotConnect) := by
  refine ⟨?_, ?_, ?_⟩
  · intro ht hbad
    subst ht
    by_cases hst : st = 200
    · subst hst
      rcases hbad with hbad | hbad
      · exact absurd (by decide) hbad
      · simp [download_asset, hbad]
    · simp [download_asset, hst]
  · intro e he
    cases t with
    | false =>
      refine ⟨rfl, ?_⟩
      simp only [download_asset, Bool.not_false, if_true, reduceIte] at he
      exact (Except.error.inj he).symm
    | true =>
      exfalso
      by_cases hst : st = 200
      · subst hst
        by_cases hc : ct ∈ allowedMimeTypesDownload
        · simp [download_asset, hc] at he
        · simp [download_asset, hc] at he
      · simp [download_asset, hst] at he
  · intro ht
    subst ht
    simp [download_asset]

/-- Witness for C9 at concrete exchanges: a 404 yields `None`, a wrong
content type at 200 yields `None`, a transport failure raises
`CannotConnect`. -/
theorem download_asset_none_vs_raise_witness :
    download_asset true 404 "image/png" [7] = Except.ok none ∧
      download_asset true 200 "text/html" [7] = Except.ok none ∧
      download_asset false 200 "image/png" [7] = Except.error PyErr.cannotConnect :=
  ⟨(download_asset_none_vs_raise true 404 "image/png" [7]).1 rfl (by decide),
   (download_asset_none_vs_raise true 200 "text/html" [7]).1 rfl (by decide),
   (download_asset_none_vs_raise false 200 "image/png" [7]).2.2 rfl⟩

/-- C10: despite the declared `dict | None` return type, every non-raising
execution of `get_asset_info` returns the metadata mapping itself (never
`None`), and a non-200 response raises `ApiError` instead of returning
`None`.  Consequently the update loop's unguarded `.get` reads on the
result of a returning call (modelled by `attrsOfInfo`) never dereference a
missing mapping. -/
theorem get_asset_info_never_returns_none (t : Bool) (st : Nat) (b : AssetInfo) :
    (∀ r, get_asset_info t st b = Except.ok r → r = some b) ∧
      (t = true → st ≠ 200 → get_asset_info t st b = Except.error PyErr.apiError) := by
  constructor
  · intro r hr
    cases t with
    | false => simp [get_asset_info] at hr
    | true =>
      by_cases hst : st = 200
      · subst hst
        simpa [get_asset_info] using hr.symm
      · simp [get_asset_info, hst] at hr
  · intro ht hst
    subst ht
    simp [get_asset_info, hst]

/-- Witness for C10 at concrete exchanges: the 200 path returns the
mapping, the 500 path raises `ApiError`. -/
theorem get_asset_info_never_returns_none_witness :
    (some (AssetInfo.mk (some "f.jpg") none none) =
        some (AssetInfo.mk (some "f.jpg") none none)) ∧
      get_asset_info true 500 (AssetInfo.mk (some "f.jpg") none none) =
        Except.error PyErr.apiError :=
  ⟨(get_asset_info_never_returns_none true 200 (AssetInfo.mk (some "f.jpg") none none)).1
      (some (AssetInfo.mk (some "f.jpg") none none)) rfl,
   (get_asset_info_never_returns_none true 500 (AssetInfo.mk (some "f.jpg") none none)).2
      rfl (by decide)⟩

/-- C7: when the next-asset selection on the entry state yields `none`
(empty candidate pool), `_load_and_cache_next_image` returns at once — no
exception, no sleep — and the displayed-image slice keeps its previous
values: bytes, attribute mapping and last-updated timestamp are all
unchanged (only the candidate cache may have been refreshed). -/
theorem load_and_cache_keeps_image_when_pool_empty (r : List String)
    (download : String → Option (List Nat)) (getInfo : String → AssetInfo)
    (idxFn : Nat → Nat) (now fuel : Nat) (s : ImageState)
    (h : (get_next_asset_id r (idxFn 0) now s.cache).2 = none) :
    (load_and_cache_next_image r download getInfo idxFn now (fuel + 1) s).1 = true ∧
      (load_and_cache_next_image r download getInfo idxFn now (fuel + 1) s).2.1.current_image_bytes
        = s.current_image_bytes ∧
      (load_and_cache_next_image r download getInfo idxFn now (fuel + 1) s).2.1.extra_state_attributes
        = s.extra_state_attributes ∧
      (load_and_cache_next_image r download getInfo idxFn now (fuel + 1) s).2.1.image_last_updated
        = s.image_last_updated ∧
      (load_and_cache_next_image r download getInfo idxFn now (fuel + 1) s).2.2 = 0 := by
  unfold load_and_cache_next_image loadLoop
  simp [h]

/-- Witness for C7: an entity with a fresh but empty cached pool; one
update call terminates immediately with the displayed image untouched. -/
theorem load_and_cache_keeps_image_when_pool_empty_witness :
    (load_and_cache_next_image [] (fun _ => none) (fun _ => AssetInfo.mk none none none)
        (fun _ => 0) 0 (0 + 1)
        (ImageState.mk (CacheState.mk (some []) (some 0)) (some [9])
          (AttrMap.mk "f" "e" "d") (some 7))).1 = true ∧
      (load_and_cache_next_image [] (fun _ => none) (fun _ => AssetInfo.mk none none none)
          (fun _ => 0) 0 (0 + 1)
          (ImageState.mk (CacheState.mk (some []) (some 0)) (some [9])
            (AttrMap.mk "f" "e" "d") (some 7))).2.1.current_image_bytes = some [9] ∧
      (load_and_cache_next_image [] (fun _ => none) (fun _ => AssetInfo.mk none none none)
          (fun _ => 0) 0 (0 + 1)
          (ImageState.mk (CacheState.mk (some []) (some 0)) (some [9])
            (AttrMap.mk "f" "e" "d") (some 7))).2.1.extra_state_attributes =
        AttrMap.mk "f" "e" "d" ∧
      (load_and_cache_next_image [] (fun _ => none) (fun _ => AssetInfo.mk none none none)
          (fun _ => 0) 0 (0 + 1)
          (ImageState.mk (CacheState.mk (some []) (some 0)) (some [9])
            (AttrMap.mk "f" "e" "d") (some 7))).2.1.image_last_updated = some 7 ∧
      (load_and_cache_next_image [] (fun _ => none) (fun _ => AssetInfo.mk none none none)
          (fun _ => 0) 0 (0 + 1)
          (ImageState.mk (CacheState.mk (some []) (some 0)) (some [9])
            (AttrMap.mk "f" "e" "d") (some 7))).2.2 = 0 :=
  load_and_cache_keeps_image_when_pool_empty [] (fun _ => none)
    (fun _ => AssetInfo.mk none none none) (fun _ => 0) 0 0
    (ImageState.mk (CacheState.mk (some []) (some 0)) (some [9])
      (AttrMap.mk "f" "e" "d") (some 7)) rfl

/-- On a non-empty cache (and a non-empty refresh result, so the cache
stays non-empty across any refresh) `_get_next_asset_id` always yields a
member of the list it selected from — that list being the refresh result
or the prior cache — and leaves that non-empty list cached. -/
lemma get_next_asset_id_of_nonempty (r : List String) (idx now : Nat) (s : CacheState)
    (ids : List String) (hc : s.cached = some ids) (hne : ids ≠ []) (hr : r ≠ []) :
    ∃ ids' x, (get_next_asset_id r idx now s).1.cached = some ids' ∧ ids' ≠ [] ∧
      (get_next_asset_id r idx now s).2 = some x ∧ x ∈ ids' ∧
      (ids' = r ∨ ids' = ids) := by
  rw [get_next_asset_id_fst, get_next_asset_id_snd]
  unfold refreshedCache
  by_cases hst : cacheIsStale now s.lastUpdated
  · obtain ⟨x, hx, hxm⟩ := pickRandom_some_of_ne_nil idx r hr
    exact ⟨r, x, by simp [hst], hr, by simp [hst, hx], hxm, Or.inl rfl⟩
  · obtain ⟨x, hx, hxm⟩ := pickRandom_some_of_ne_nil idx ids hne
    exact ⟨ids, x, by simp [hst, hc], hne, by simp [hst, hc, hx], hxm, Or.inr rfl⟩

/-- The retry loop under universally failing downloads: from any state
whose cached pool is non-empty and free of the falsy empty-string ID
(likewise the refresh result, so both properties survive any refresh) it
consumes all its fuel, sleeps once per iteration, and never touches the
displayed-image slice. -/
lemma loadLoop_all_downloads_fail (download : String → Option (List Nat))
    (hd : ∀ a, download a = none ∨ download a = some []) (r : List String)
    (hr : r ≠ []) (hrns : "" ∉ r)
    (getInfo : String → AssetInfo) (idxFn : Nat → Nat) (now : Nat) :
    ∀ fuel i (s : ImageState) (ids : List String),
      s.cache.cached = some ids → ids ≠ [] → "" ∉ ids →
      (loadLoop r download getInfo idxFn now fuel i s).1 = false ∧
        (loadLoop r download getInfo idxFn now fuel i s).2.1.current_image_bytes
          = s.current_image_bytes ∧
        (loadLoop r download getInfo idxFn now fuel i s).2.1.extra_state_attributes
          = s.extra_state_attributes ∧
        (loadLoop r download getInfo idxFn now fuel i s).2.1.image_last_updated
          = s.image_last_updated ∧
        (loadLoop r download getInfo idxFn now fuel i s).2.2 = fuel := by
  intro fuel
  induction fuel with
  | zero =>
    intro i s ids hc hne hns
    simp [loadLoop]
  | succ n ih =>
    intro i s ids hc hne hns
    obtain ⟨ids', x, hc', hne', hx, hxm, hor⟩ :=
      get_next_asset_id_of_nonempty r (idxFn i) now s.cache ids hc hne hr
    have hns' : "" ∉ ids' := by
      rcases hor with rfl | rfl
      · exact hrns
      · exact hns
    have hxne : ¬(x = "") := fun hxe => hns' (hxe ▸ hxm)
    have hrec := ih (i + 1) { s with cache := (get_next_asset_id r (idxFn i) now s.cache).1 }
      ids' hc' hne' hns'
    unfold loadLoop
    rcases hd x with hdx | hdx <;>
      simp only [hx, hxne, if_false, reduceIte, hdx] <;>
      exact ⟨hrec.1, hrec.2.1, hrec.2.2.1, hrec.2.2.2.1, by rw [hrec.2.2.2.2]⟩

/-- C8 counterexample: a non-empty candidate pool whose only ID is the
empty string, with every download attempt returning no bytes.  The claim
asserts the update never terminates and sleeps once per attempt, but
`if not asset_id: return` is a falsy test, so `random.choice([""])`
terminates the loop at once: after 3 units of fuel the operation has
finished (`true`), slept zero times, and left the state untouched — no
retry ever happens. -/
theorem load_and_cache_stops_on_empty_string_id :
    (([""] : List String) ≠ []) ∧
      load_and_cache_next_image [""] (fun _ => none)
          (fun _ => AssetInfo.mk none none none) (fun _ => 0) 0 3
          (ImageState.mk (CacheState.mk (some [""]) (some 0)) none
            (AttrMap.mk "" "" "") none) =
        (true,
          ImageState.mk (CacheState.mk (some [""]) (some 0)) none
            (AttrMap.mk "" "" "") none, 0) := by
  exact ⟨by decide, rfl⟩

/-- C8 (amended): when the cached pool is non-empty and contains no
empty-string ID, every refresh result is likewise non-empty with no
empty-string ID, and every download attempt yields no bytes (`None` or
empty), the update operation never terminates (it exhausts any amount of
fuel), performs exactly one 1-second sleep per attempt, and never updates
the displayed image: bytes, attributes and last-updated timestamp keep
their initial values after arbitrarily many iterations. -/
theorem load_and_cache_retries_forever (r ids : List String)
    (download : String → Option (List Nat)) (getInfo : String → AssetInfo)
    (idxFn : Nat → Nat) (now : Nat) (s : ImageState)
    (hc : s.cache.cached = some ids) (hne : ids ≠ []) (hns : "" ∉ ids)
    (hr : r ≠ []) (hrns : "" ∉ r)
    (hd : ∀ a, download a = none ∨ download a = some []) (fuel : Nat) :
    (load_and_cache_next_image r download getInfo idxFn now fuel s).1 = false ∧
      (load_and_cache_next_image r download getInfo idxFn now fuel s).2.1.current_image_bytes
        = s.current_image_bytes ∧
      (load_and_cache_next_image r download getInfo idxFn now fuel s).2.1.extra_state_attributes
        = s.extra_state_attributes ∧
      (load_and_cache_next_image r download getInfo idxFn now fuel s).2.1.image_last_updated
        = s.image_last_updated ∧
      (load_and_cache_next_image r download getInfo idxFn now fuel s).2.2 = fuel :=
  loadLoop_all_downloads_fail download hd r hr hrns getInfo idxFn now fuel 0 s ids
    hc hne hns

/-- Witness for the amended C8 at the spec's end-to-end scenario 2: pool
`["a"]`, every download of `"a"` fails; three units of fuel are consumed
with three sleeps and no image update. -/
theorem load_and_cache_retries_forever_witness :
    (load_and_cache_next_image ["a"] (fun _ => none)
        (fun _ => AssetInfo.mk none none none) (fun _ => 0) 0 3
        (ImageState.mk (CacheState.mk (some ["a"]) (some 0)) none
          (AttrMap.mk "" "" "") none)).1 = false ∧
      (load_and_cache_next_image ["a"] (fun _ => none)
          (fun _ => AssetInfo.mk none none none) (fun _ => 0) 0 3
          (ImageState.mk (CacheState.mk (some ["a"]) (some 0)) none
            (AttrMap.mk "" "" "") none)).2.1.current_image_bytes = none ∧
      (load_and_cache_next_image ["a"] (fun _ => none)
          (fun _ => AssetInfo.mk none none none) (fun _ => 0) 0 3
          (ImageState.mk (CacheState.mk (some ["a"]) (some 0)) none
            (AttrMap.mk "" "" "") none)).2.1.extra_state_attributes =
        AttrMap.mk "" "" "" ∧
      (load_and_cache_next_image ["a"] (fun _ => none)
          (fun _ => AssetInfo.mk none none none) (fun _ => 0) 0 3
          (ImageState.mk (CacheState.mk (some ["a"]) (some 0)) none
            (AttrMap.mk "" "" "") none)).2.1.image_last_updated = none ∧
      (load_and_cache_next_image ["a"] (fun _ => none)
          (fun _ => AssetInfo.mk none none none) (fun _ => 0) 0 3
          (ImageState.mk (CacheState.mk (some ["a"]) (some 0)) none
            (AttrMap.mk "" "" "") none)).2.2 = 3 :=
  load_and_cache_retries_forever ["a"] ["a"] (fun _ => none)
    (fun _ => AssetInfo.mk none none none) (fun _ => 0) 0
    (ImageState.mk (CacheState.mk (some ["a"]) (some 0)) none
      (AttrMap.mk "" "" "") none)
    rfl (by decide) (by decide) (by decide) (by decide) (fun _ => Or.inl rfl) 3
